import Mathlib

/-!
# Device monitor: launch line and device report

A shallow embedding of `app/jni/gst_device_monitor.c`: the routines
`get_launch_line`, `print_structure_field`, `print_field`, `print_device`,
`device_removed` and `bus_msg_handler`.

The program is glue over GLib and GStreamer.  What those libraries answer is
input data of the model: a device, its element, the element's factory and the
property list are records holding the answers the program reads from them, and
the value operations (`gst_value_compare`, `gst_value_serialize`, the
`G_VALUE_*` accessors) are the fields of `GstValueApi`, over an arbitrary type
`V` of values.  The logging sink is an explicit list of records threaded
through every routine.
-/

namespace DeviceMonitor

/-! ## Logging sink -/

/-- Severity of a log record; the program logs with `GST_WARNING` and `GST_INFO`. -/
inductive GstDebugLevel
  | WARNING
  | INFO
  deriving DecidableEq, Repr

/-- One record written to the logging sink: severity and formatted message. -/
structure LogRecord where
  level : GstDebugLevel
  message : String
  deriving DecidableEq, Repr

/-- The logging sink: the records written so far, oldest first. -/
abbrev Log := List LogRecord

/-- The call `GST_INFO (message)`: one more info record. -/
def GST_INFO (log : Log) (message : String) : Log :=
  log ++ [⟨GstDebugLevel.INFO, message⟩]

/-- The call `GST_WARNING (message)`: one more warning record. -/
def GST_WARNING (log : Log) (message : String) : Log :=
  log ++ [⟨GstDebugLevel.WARNING, message⟩]

/-! ## Formatting directives -/

/-- The directive `%s` applied to a `gchar *` that may be `NULL`.  GStreamer
formats its debug messages with its own printf, which writes `(null)` for a
`NULL` string. -/
def printf_s (str : Option String) : String :=
  match str with
  | some s => s
  | none => "(null)"

/-- The directive `%u` applied to a `guint`: decimal digits. -/
def printf_u (u : Nat) : String :=
  String.mk (Nat.toDigits 10 u)

/-- The directive `%08x` applied to a `guint`: lowercase hexadecimal digits,
padded on the left with zeros to a width of 8. -/
def printf_08x (u : Nat) : String :=
  let digits := Nat.toDigits 16 u
  String.mk (List.replicate (8 - digits.length) '0' ++ digits)

/-! ## Library objects, as the program reads them -/

/-- Value operations of GLib and GStreamer used by the program, over the values
`V` held in a `GValue`.  They are library code outside the repository. -/
structure GstValueApi (V : Type) where
  /-- The test `G_VALUE_HOLDS_UINT (value)`. -/
  G_VALUE_HOLDS_UINT : V → Bool
  /-- The accessor `g_value_get_uint (value)`; read as a `guint`, modulo `2 ^ 32`. -/
  g_value_get_uint : V → Nat
  /-- The name `G_VALUE_TYPE_NAME (value)`. -/
  G_VALUE_TYPE_NAME : V → String
  /-- The call `gst_value_serialize (value)`; `none` is the `NULL` result. -/
  gst_value_serialize : V → Option String
  /-- The call `gst_value_compare (value1, value2)`: less than `-1`, equal `0`,
  greater than `1`, unordered `2`. -/
  gst_value_compare : V → V → Int

/-- The constant `GST_VALUE_EQUAL` of `gst_value_compare`. -/
def GST_VALUE_EQUAL : Int := 0

/-- The flag `G_PARAM_READABLE` (bit 0). -/
def G_PARAM_READABLE : Nat := 1

/-- The flag `G_PARAM_WRITABLE` (bit 1). -/
def G_PARAM_WRITABLE : Nat := 2

/-- The mask `G_PARAM_READWRITE`, which GLib defines as
`G_PARAM_READABLE | G_PARAM_WRITABLE`. -/
def G_PARAM_READWRITE : Nat := G_PARAM_READABLE ||| G_PARAM_WRITABLE

/-- A `GParamSpec`: the fields of a property descriptor the program reads. -/
structure GParamSpec where
  name : String
  flags : Nat
  value_type : String
  deriving DecidableEq, Repr

/-- A `GstElementFactory`, as the program reads it. -/
structure GstElementFactory (V : Type) where
  /-- The answer of `gst_plugin_feature_get_name (factory)`; `none` is `NULL`. -/
  feature_name : Option String
  /-- For a property, the content of `pvalue` after `g_value_init` and
  `g_object_get_property` on the instance that
  `gst_element_factory_create (factory, NULL)` returns: the value the property
  holds on a fresh, unconfigured instance. -/
  pure_property : GParamSpec → V

/-- A `GstElement` created for a device, as the program reads it. -/
structure GstElement (V : Type) where
  /-- The name `GST_OBJECT_NAME (element)`. -/
  object_name : String
  /-- The answer of `gst_element_get_factory (element)`; `none` is `NULL`. -/
  factory : Option (GstElementFactory V)
  /-- The answer of `g_object_class_list_properties`: the property array in the
  order the library lists it; `none` is `NULL`. -/
  properties : Option (List GParamSpec)
  /-- For a property, the content of `value` after `g_value_init` and
  `g_object_get_property` on the element: the device-configured value. -/
  get_property : GParamSpec → V

/-- A `GstStructure`: its name and its fields in order (field name, value). -/
structure GstStructure (V : Type) where
  name : String
  fields : List (String × V)

/-- A `GstCapsFeatures`, as the program reads it. -/
structure GstCapsFeatures where
  /-- The answer of `gst_caps_features_is_any`. -/
  is_any : Bool
  /-- The answer of `gst_caps_features_is_equal` against
  `GST_CAPS_FEATURES_MEMORY_SYSTEM_MEMORY`. -/
  is_equal_system_memory : Bool
  /-- The answer of `gst_caps_features_to_string`. -/
  to_string : String

/-- A `GstDevice`, as the program reads it. -/
structure GstDevice (V : Type) where
  /-- The answer of `gst_device_get_display_name`. -/
  display_name : String
  /-- The answer of `gst_device_get_device_class`. -/
  device_class : String
  /-- The answer of `gst_device_has_classes (device, classes)`. -/
  has_classes : String → Bool
  /-- The answer of `gst_device_get_caps`: for each index the structure and its
  features (`none` is `NULL`); `none` for the whole is a `NULL` caps. -/
  caps : Option (List (GstStructure V × Option GstCapsFeatures))
  /-- The answer of `gst_device_get_properties`; `none` is `NULL`. -/
  properties : Option (GstStructure V)
  /-- The answer of `gst_device_create_element (device, NULL)`; `none` is `NULL`. -/
  create_element : Option (GstElement V)

/-- The library routine `gst_structure_foreach`: calls `func` on every field in
order and stops at the first field for which it answers `FALSE`; the result is
`TRUE` when `func` answered `TRUE` for every field. -/
def gst_structure_foreach {V : Type} (func : String → V → Log → Bool × Log) :
    List (String × V) → Log → Bool × Log
  | [], log => (true, log)
  | field :: rest, log =>
    let r := func field.1 field.2 log
    if r.1 then gst_structure_foreach func rest r.2 else (false, r.2)

/-! ## `get_launch_line` -/

/-- The static table `ignored_propnames`, without its `NULL` terminator. -/
def ignored_propnames : List String :=
  ["name", "parent", "direction", "template", "caps"]

/-- The inner loop `for (j = 0; ignored_propnames[j]; j++)`: sets `ignore` when
`g_strcmp0` finds the property name equal to an entry of the table. -/
def ignore_scan (name : String) : List String → Bool → Bool
  | [], ignore => ignore
  | entry :: rest, ignore =>
    ignore_scan name rest (if entry = name then true else ignore)

/-- One iteration of the loop over `properties` in `get_launch_line`, on the
state made of the `launch_line` text and the log. -/
def launch_line_step {V : Type} (api : GstValueApi V) (element : GstElement V)
    (factory : GstElementFactory V) (property : GParamSpec)
    (state : String × Log) : String × Log :=
  if property.flags &&& G_PARAM_READWRITE ≠ G_PARAM_READWRITE then
    state
  else if ignore_scan property.name ignored_propnames false = true then
    state
  else
    let value := element.get_property property
    let pvalue := factory.pure_property property
    if api.gst_value_compare value pvalue ≠ GST_VALUE_EQUAL then
      match api.gst_value_serialize value with
      | none =>
        (state.1, GST_WARNING state.2
          ("Could not serialize property " ++ element.object_name ++ ":" ++ property.name))
      | some valuestr =>
        (state.1 ++ " " ++ property.name ++ "=" ++ valuestr, state.2)
    else
      state

/-- The loop `for (i = 0; i < number_of_properties; i++)` of `get_launch_line`. -/
def launch_line_loop {V : Type} (api : GstValueApi V) (element : GstElement V)
    (factory : GstElementFactory V) : List GParamSpec → String × Log → String × Log
  | [], state => state
  | property :: rest, state =>
    launch_line_loop api element factory rest
      (launch_line_step api element factory property state)

/-- The routine `get_launch_line (device)`: the returned text (`none` is `NULL`)
and the log after the call. -/
def get_launch_line {V : Type} (api : GstValueApi V) (device : GstDevice V)
    (log : Log) : Option String × Log :=
  match device.create_element with
  | none => (none, log)
  | some element =>
    match element.factory with
    | none => (none, log)
    | some factory =>
      match factory.feature_name with
      | none => (none, log)
      | some feature_name =>
        let launch_line := feature_name
        let state :=
          match element.properties with
          | some properties =>
            launch_line_loop api element factory properties (launch_line, log)
          | none => (launch_line, log)
        (some state.1, state.2)

/-! ## `print_structure_field`, `print_field`, `print_device` -/

/-- The callback `print_structure_field`: renders one entry of the property bag. -/
def print_structure_field {V : Type} (api : GstValueApi V) (field_id : String)
    (value : V) (log : Log) : Bool × Log :=
  let val : Option String :=
    if api.G_VALUE_HOLDS_UINT value = true then
      some (printf_u (api.g_value_get_uint value % 2 ^ 32) ++ " (0x"
        ++ printf_08x (api.g_value_get_uint value % 2 ^ 32) ++ ")")
    else
      api.gst_value_serialize value
  match val with
  | some val => (true, GST_INFO log ("\n\t\t" ++ field_id ++ " = " ++ val))
  | none =>
    (true, GST_INFO log ("\n\t\t" ++ field_id ++ " - could not serialise field of type "
      ++ api.G_VALUE_TYPE_NAME value))

/-- The callback `print_field`: renders one field of a capability structure. -/
def print_field {V : Type} (api : GstValueApi V) (field : String) (value : V)
    (log : Log) : Bool × Log :=
  let str := api.gst_value_serialize value
  (true, GST_INFO log (", " ++ field ++ "=" ++ printf_s str))

/-- One iteration of the loop over the capability structures in `print_device`. -/
def print_caps_structure {V : Type} (api : GstValueApi V) (i : Nat)
    (s : GstStructure V) (features : Option GstCapsFeatures) (log : Log) : Log :=
  let log := GST_INFO log ("\t" ++ (if i = 0 then "caps  :" else "       ") ++ " " ++ s.name)
  let log :=
    match features with
    | some f =>
      if f.is_any || !f.is_equal_system_memory then
        GST_INFO log ("(" ++ f.to_string ++ ")")
      else log
    | none => log
  let log := (gst_structure_foreach (print_field api) s.fields log).2
  GST_INFO log "\n"

/-- The loop `for (i = 0; i < size; ++i)` of `print_device`, from index `i` on. -/
def print_caps_loop {V : Type} (api : GstValueApi V) :
    Nat → List (GstStructure V × Option GstCapsFeatures) → Log → Log
  | _, [], log => log
  | i, entry :: rest, log =>
    print_caps_loop api (i + 1) rest (print_caps_structure api i entry.1 entry.2 log)

/-- The first part of `print_device`, up to the call of `get_launch_line`: the
header, the name, the class, the capability listing and the property bag. -/
def print_device_listing {V : Type} (api : GstValueApi V) (device : GstDevice V)
    (modified : Bool) (log : Log) : Log :=
  let caps := device.caps
  let name := device.display_name
  let device_class := device.device_class
  let props := device.properties
  let log := GST_INFO log ("\nDevice " ++ (if modified then "modified" else "found") ++ ":\n\n")
  let log := GST_INFO log ("\tname  : " ++ name ++ "\n")
  let log := GST_INFO log ("\tclass : " ++ device_class ++ "\n")
  let log :=
    match caps with
    | some structures => print_caps_loop api 0 structures log
    | none => log
  match props with
  | some props =>
    let log := GST_INFO log "\tproperties:"
    let log := (gst_structure_foreach (print_structure_field api) props.fields log).2
    GST_INFO log "\n"
  | none => log

/-- The routine `print_device (device, modified)`: the log after the call. -/
def print_device {V : Type} (api : GstValueApi V) (device : GstDevice V)
    (modified : Bool) (log : Log) : Log :=
  let log := print_device_listing api device modified log
  let r := get_launch_line api device log
  let str := r.1
  let log := r.2
  let log :=
    if device.has_classes "Source" = true then
      GST_INFO log ("\tgst-launch-1.0 " ++ printf_s str ++ " ! ...\n")
    else if device.has_classes "Sink" = true then
      GST_INFO log ("\tgst-launch-1.0 ... ! " ++ printf_s str ++ "\n")
    else if device.has_classes "CameraSource" = true then
      GST_INFO log ("\tgst-launch-1.0 " ++ printf_s str ++ ".vfsrc name=camerasrc ! ... "
        ++ "camerasrc.vidsrc ! [video/x-h264] ... \n")
    else log
  GST_INFO log "\n"

/-! ## The launch line in the words of the specification -/

/-- The property is readable: its flags include `G_PARAM_READABLE`. -/
abbrev readable (p : GParamSpec) : Prop := p.flags &&& G_PARAM_READABLE ≠ 0

/-- The property is writable: its flags include `G_PARAM_WRITABLE`. -/
abbrev writable (p : GParamSpec) : Prop := p.flags &&& G_PARAM_WRITABLE ≠ 0

/-- The fixed exclusion set of the specification. -/
def excluded_names : List String :=
  ["name", "parent", "direction", "template", "caps"]

/-- The device-configured value of the property differs from the value on a
fresh, unconfigured instance: the comparison does not answer "equal". -/
abbrev differs {V : Type} (api : GstValueApi V) (element : GstElement V)
    (factory : GstElementFactory V) (p : GParamSpec) : Prop :=
  api.gst_value_compare (element.get_property p) (factory.pure_property p) ≠ GST_VALUE_EQUAL

/-- The property takes part in the diff: readable and writable, not excluded,
and differing from the default. -/
abbrev selected {V : Type} (api : GstValueApi V) (element : GstElement V)
    (factory : GstElementFactory V) (p : GParamSpec) : Prop :=
  readable p ∧ writable p ∧ p.name ∉ excluded_names ∧ differs api element factory p

/-- The pairs of the launch line as the specification words them: the selected
properties, in list order, whose device-configured value serializes to a text,
each with that text. -/
def spec_pairs {V : Type} (api : GstValueApi V) (element : GstElement V)
    (factory : GstElementFactory V) (properties : List GParamSpec) :
    List (GParamSpec × String) :=
  properties.filterMap fun p =>
    if selected api element factory p then
      (api.gst_value_serialize (element.get_property p)).map fun s => (p, s)
    else none

/-- The piece a pair adds to the launch line: one space, the name, `=`, the text. -/
def pair_text (pair : GParamSpec × String) : String :=
  " " ++ pair.1.name ++ "=" ++ pair.2

/-- The launch line as the specification words it: the type name followed by the
pieces of the pairs, nothing else. -/
def spec_launch_line {V : Type} (api : GstValueApi V) (element : GstElement V)
    (factory : GstElementFactory V) (feature_name : String) : String :=
  feature_name ++
    String.join ((spec_pairs api element factory (element.properties.getD [])).map pair_text)

/-- The device cannot be turned into a named element type: no element, or an
element without factory, or a factory without name. -/
def unresolved {V : Type} (device : GstDevice V) : Prop :=
  device.create_element = none ∨
  (∃ element, device.create_element = some element ∧ element.factory = none) ∨
  (∃ element factory, device.create_element = some element ∧
    element.factory = some factory ∧ factory.feature_name = none)

/-- What the specification says the launch line depends on: the resolved type
name, the property list, and for each listed property its device-configured
value and its default-instance value; `none` when the device does not resolve. -/
def launch_view {V : Type} (device : GstDevice V) :
    Option (String × List (GParamSpec × V × V)) :=
  match device.create_element with
  | none => none
  | some element =>
    match element.factory with
    | none => none
    | some factory =>
      match factory.feature_name with
      | none => none
      | some feature_name =>
        some (feature_name, (element.properties.getD []).map fun p =>
          (p, element.get_property p, factory.pure_property p))

/-- The pairs of the launch line computed from the listed properties with their
two values. -/
def view_pairs {V : Type} (api : GstValueApi V) (entries : List (GParamSpec × V × V)) :
    List (GParamSpec × String) :=
  entries.filterMap fun entry =>
    if readable entry.1 ∧ writable entry.1 ∧ entry.1.name ∉ excluded_names ∧
        api.gst_value_compare entry.2.1 entry.2.2 ≠ GST_VALUE_EQUAL then
      (api.gst_value_serialize entry.2.1).map fun s => (entry.1, s)
    else none

/-! ## Sample library and devices for the worked examples -/

/-- A value of the sample library: its type name, its `guint` payload when it
holds one, and its serialized text when it has one. -/
structure SampleValue where
  type_name : String
  uint : Option Nat
  text : Option String
  deriving DecidableEq, Repr

/-- The sample library: two values compare equal when they are the same, and
unordered otherwise. -/
def sample_api : GstValueApi SampleValue where
  G_VALUE_HOLDS_UINT v := v.uint.isSome
  g_value_get_uint v := v.uint.getD 0
  G_VALUE_TYPE_NAME v := v.type_name
  gst_value_serialize v := v.text
  gst_value_compare a b := if a = b then 0 else 2

/-- Sample property descriptors: `name` (excluded), `pattern`, `blob` and
`device` are readable and writable, `stats` is read-only. -/
def name_spec : GParamSpec := ⟨"name", 3, "gchararray"⟩

/-- See `name_spec`. -/
def pattern_spec : GParamSpec := ⟨"pattern", 3, "GstVideoTestSrcPattern"⟩

/-- See `name_spec`. -/
def blob_spec : GParamSpec := ⟨"blob", 3, "gpointer"⟩

/-- See `name_spec`. -/
def device_spec : GParamSpec := ⟨"device", 3, "gchararray"⟩

/-- See `name_spec`. -/
def stats_spec : GParamSpec := ⟨"stats", 1, "GstStructure"⟩

/-- Factory of the sample `videotestsrc`: a fresh instance has `pattern=0`. -/
def videotestsrc_factory : GstElementFactory SampleValue where
  feature_name := some "videotestsrc"
  pure_property p :=
    if p.name = "pattern" then ⟨p.value_type, none, some "0"⟩
    else if p.name = "name" then ⟨p.value_type, none, some "videotestsrc1"⟩
    else ⟨p.value_type, none, none⟩

/-- Element of the sample `videotestsrc` device: configured with `pattern=1`. -/
def videotestsrc_element : GstElement SampleValue where
  object_name := "videotestsrc0"
  factory := some videotestsrc_factory
  properties := some [name_spec, pattern_spec]
  get_property p :=
    if p.name = "pattern" then ⟨p.value_type, none, some "1"⟩
    else if p.name = "name" then ⟨p.value_type, none, some "videotestsrc0"⟩
    else ⟨p.value_type, none, none⟩

/-- The sample device of class `Source` represented by `videotestsrc pattern=1`. -/
def videotestsrc_device : GstDevice SampleValue where
  display_name := "Test pattern"
  device_class := "Video/Source"
  has_classes c := decide (c = "Source")
  caps := none
  properties := none
  create_element := some videotestsrc_element

/-- Factory of the sample `alsasink`. -/
def alsasink_factory : GstElementFactory SampleValue where
  feature_name := some "alsasink"
  pure_property p :=
    if p.name = "name" then ⟨p.value_type, none, some "alsasink1"⟩
    else ⟨p.value_type, none, some "default"⟩

/-- Element of the sample `alsasink` device: every property other than the
excluded `name` holds its default. -/
def alsasink_element : GstElement SampleValue where
  object_name := "alsasink0"
  factory := some alsasink_factory
  properties := some [name_spec, device_spec, stats_spec]
  get_property p :=
    if p.name = "name" then ⟨p.value_type, none, some "alsasink0"⟩
    else ⟨p.value_type, none, some "default"⟩

/-- The sample device of class `Sink` represented by `alsasink`. -/
def alsasink_device : GstDevice SampleValue where
  display_name := "Speakers"
  device_class := "Audio/Sink"
  has_classes c := decide (c = "Sink")
  caps := none
  properties := none
  create_element := some alsasink_element

/-- A sample device of class `Source` for which no element can be created. -/
def unresolved_source_device : GstDevice SampleValue where
  display_name := "Ghost camera"
  device_class := "Video/Source"
  has_classes c := decide (c = "Source")
  caps := none
  properties := none
  create_element := none

/-- Element of a sample device with the property `blob`, readable and writable,
differing from the default and without a serialization, listed between `name`
and `pattern`. -/
def blob_element : GstElement SampleValue where
  object_name := "videotestsrc0"
  factory := some videotestsrc_factory
  properties := some ([name_spec] ++ blob_spec :: [pattern_spec])
  get_property p :=
    if p.name = "pattern" then ⟨p.value_type, none, some "1"⟩
    else if p.name = "name" then ⟨p.value_type, none, some "videotestsrc0"⟩
    else ⟨p.value_type, some 7, none⟩

/-- The sample device represented by `blob_element`. -/
def blob_device : GstDevice SampleValue where
  display_name := "Test pattern with blob"
  device_class := "Video/Source"
  has_classes c := decide (c = "Source")
  caps := none
  properties := none
  create_element := some blob_element

/-- The sample `videotestsrc` device seen a second time: another display name,
class, capability list and element name, the same type, property list and
values. -/
def videotestsrc_device_again : GstDevice SampleValue where
  display_name := "Test pattern (second look)"
  device_class := "Source/Video"
  has_classes c := decide (c = "Source" ∨ c = "Video")
  caps := some []
  properties := none
  create_element := some { videotestsrc_element with object_name := "videotestsrc7" }

/-- The entry of the property bag as the specification words it: an unsigned
integer as `decimal (0xHEX)`, any other value by its serialization, and a value
without serialization by a marker naming its type. -/
def spec_entry {V : Type} (api : GstValueApi V) (field_id : String) (value : V) : String :=
  if api.G_VALUE_HOLDS_UINT value = true then
    field_id ++ " = " ++ toString (api.g_value_get_uint value % 2 ^ 32) ++ " (0x"
      ++ printf_08x (api.g_value_get_uint value % 2 ^ 32) ++ ")"
  else
    match api.gst_value_serialize value with
    | some s => field_id ++ " = " ++ s
    | none => field_id ++ " - could not serialise field of type " ++ api.G_VALUE_TYPE_NAME value

/-- The number a text of hexadecimal digits denotes, most significant digit
first; a character that is no lowercase hexadecimal digit counts as 16. -/
def hex_value (digits : List Char) : Nat :=
  digits.foldl (fun acc c => acc * 16 + "0123456789abcdef".toList.indexOf c) 0

/-- A sample device of class `Source` whose capability structure holds a field
`handle` without serialization between two serializable fields. -/
def blob_caps_device : GstDevice SampleValue where
  display_name := "Encoder camera"
  device_class := "Video/Source"
  has_classes c := decide (c = "Source")
  caps := some [(⟨"video/x-h264",
    [("width", ⟨"gint", none, some "640"⟩),
     ("handle", ⟨"gpointer", none, none⟩),
     ("height", ⟨"gint", none, some "480"⟩)]⟩, none)]
  properties := none
  create_element := some videotestsrc_element

/-! ## `device_removed`, `bus_msg_handler` -/

/-- The routine `device_removed (device)`: the log after the call. -/
def device_removed {V : Type} (device : GstDevice V) (log : Log) : Log :=
  let name := device.display_name
  let log := GST_INFO log "Device removed:\n"
  GST_INFO log ("\tname  : " ++ name ++ "\n")

/-- A `GstMessage` as `bus_msg_handler` reads it: its `GST_MESSAGE_TYPE`, with the
device that `gst_message_parse_device_added`, `gst_message_parse_device_removed`
or `gst_message_parse_device_changed` extracts from it (the former device of a
change is not asked for), or for any other type its `GST_MESSAGE_TYPE_NAME`. -/
inductive GstMessage (V : Type)
  | DEVICE_ADDED (device : GstDevice V)
  | DEVICE_REMOVED (device : GstDevice V)
  | DEVICE_CHANGED (device : GstDevice V)
  | OTHER (type_name : String)

/-- The bus watch `bus_msg_handler (bus, msg, user_data)`: the returned flag
(`TRUE` keeps the watch installed) and the log after the call. -/
def bus_msg_handler {V : Type} (api : GstValueApi V) (msg : GstMessage V) (log : Log) :
    Bool × Log :=
  let log :=
    match msg with
    | GstMessage.DEVICE_ADDED device => print_device api device false log
    | GstMessage.DEVICE_REMOVED device => device_removed device log
    | GstMessage.DEVICE_CHANGED device => print_device api device true log
    | GstMessage.OTHER type_name => GST_INFO log (type_name ++ " message\n")
  (true, log)

/-! ## The warnings of the launch line in the words of the specification -/

/-- The warnings of the launch-line computation: one record for every selected
property, in list order, whose device-configured value has no serialization;
the record names the element and the property. -/
def spec_warnings {V : Type} (api : GstValueApi V) (element : GstElement V)
    (factory : GstElementFactory V) (properties : List GParamSpec) : List LogRecord :=
  properties.filterMap fun p =>
    if selected api element factory p ∧
        api.gst_value_serialize (element.get_property p) = none then
      some ⟨GstDebugLevel.WARNING,
        "Could not serialize property " ++ element.object_name ++ ":" ++ p.name⟩
    else none

/-- The message names a text: the text occurs in it. -/
abbrev names_text (message text : String) : Prop :=
  List.IsInfix text.toList message.toList

/-! ## Sample library and device with a not-a-number value -/

/-- A sample library in which a value with the text `nan` compares unordered
with every value, itself included, as `gst_value_compare` answers for
floating-point values that are not a number; other values compare as in
`sample_api`. -/
def nan_api : GstValueApi SampleValue :=
  { sample_api with
    gst_value_compare := fun a b => if a = b ∧ a.text ≠ some "nan" then 0 else 2 }

/-- The sample property descriptor `freq`, readable and writable. -/
def freq_spec : GParamSpec := ⟨"freq", 3, "gdouble"⟩

/-- Factory of the sample `audiotestsrc`: on a fresh instance `freq` is not a
number. -/
def audiotestsrc_factory : GstElementFactory SampleValue where
  feature_name := some "audiotestsrc"
  pure_property p := ⟨p.value_type, none, some "nan"⟩

/-- Element of the sample `audiotestsrc` device: `freq` holds the same value as
on a fresh instance. -/
def audiotestsrc_element : GstElement SampleValue where
  object_name := "audiotestsrc0"
  factory := some audiotestsrc_factory
  properties := some [freq_spec]
  get_property p := ⟨p.value_type, none, some "nan"⟩

/-- The sample device of class `Source` represented by `audiotestsrc`. -/
def audiotestsrc_device : GstDevice SampleValue where
  display_name := "Test tone"
  device_class := "Audio/Source"
  has_classes c := decide (c = "Source")
  caps := none
  properties := none
  create_element := some audiotestsrc_element

/-! ## Lemmas on the building blocks -/

theorem readwrite_mask_iff (flags : Nat) :
    flags &&& G_PARAM_READWRITE = G_PARAM_READWRITE ↔
      flags &&& G_PARAM_READABLE ≠ 0 ∧ flags &&& G_PARAM_WRITABLE ≠ 0 := by
  have h3 : flags &&& 3 = flags % 4 := Nat.and_pow_two_sub_one_eq_mod flags 2
  have h1 : flags &&& 1 = flags % 2 := Nat.and_one_is_mod flags
  have h2 : flags &&& 2 = (flags.testBit 1).toNat * 2 := Nat.and_two_pow flags 1
  have hb : flags.testBit 1 = decide (flags / 2 % 2 = 1) := by
    rw [Nat.testBit_to_div_mod]
  have hRW : G_PARAM_READWRITE = 3 := by decide
  have hR : G_PARAM_READABLE = 1 := rfl
  have hW : G_PARAM_WRITABLE = 2 := rfl
  rw [hRW, hR, hW, h3, h1, h2, hb]
  by_cases h : flags / 2 % 2 = 1
  · simp [h]; omega
  · simp [h]; omega

theorem ignore_scan_iff (name : String) (table : List String) (ignore : Bool) :
    ignore_scan name table ignore = true ↔ ignore = true ∨ name ∈ table := by
  induction table generalizing ignore with
  | nil => simp [ignore_scan]
  | cons entry rest ih =>
    rw [ignore_scan, ih]
    by_cases h : entry = name
    · simp [h]
    · have h2 : ¬ name = entry := fun e => h e.symm
      simp [h, h2]

theorem ignore_scan_table (name : String) :
    ignore_scan name ignored_propnames false = true ↔ name ∈ excluded_names := by
  rw [ignore_scan_iff]
  simp [ignored_propnames, excluded_names]

theorem string_join_cons (s : String) (l : List String) :
    String.join (s :: l) = s ++ String.join l := by
  rw [String.join_eq, String.join_eq]
  apply String.ext
  simp

theorem string_join_nil : String.join [] = "" := rfl

theorem string_join_append (l₁ l₂ : List String) :
    String.join (l₁ ++ l₂) = String.join l₁ ++ String.join l₂ := by
  induction l₁ with
  | nil => simp [string_join_nil]
  | cons s l ih => rw [List.cons_append, string_join_cons, string_join_cons, ih, String.append_assoc]

theorem spec_pairs_single_none {V : Type} (api : GstValueApi V) (element : GstElement V)
    (factory : GstElementFactory V) (p : GParamSpec)
    (h : ¬ selected api element factory p ∨
      api.gst_value_serialize (element.get_property p) = none) :
    spec_pairs api element factory [p] = [] := by
  unfold spec_pairs
  rw [List.filterMap_cons]
  rcases h with h | h
  · rw [if_neg h]
    rfl
  · rw [h]
    simp

theorem spec_pairs_single_some {V : Type} (api : GstValueApi V) (element : GstElement V)
    (factory : GstElementFactory V) (p : GParamSpec) (s : String)
    (hsel : selected api element factory p)
    (hs : api.gst_value_serialize (element.get_property p) = some s) :
    spec_pairs api element factory [p] = [(p, s)] := by
  unfold spec_pairs
  rw [List.filterMap_cons, if_pos hsel, hs]
  rfl

/-- The text after one iteration: the piece of the property, if it yields a
pair, is appended to the text before. -/
theorem launch_line_step_text {V : Type} (api : GstValueApi V) (element : GstElement V)
    (factory : GstElementFactory V) (p : GParamSpec) (state : String × Log) :
    (launch_line_step api element factory p state).1 =
      state.1 ++ String.join ((spec_pairs api element factory [p]).map pair_text) := by
  unfold launch_line_step
  by_cases hrw : p.flags &&& G_PARAM_READWRITE = G_PARAM_READWRITE
  · have hrw2 := (readwrite_mask_iff p.flags).1 hrw
    by_cases hig : ignore_scan p.name ignored_propnames false = true
    · have hex := (ignore_scan_table p.name).1 hig
      rw [spec_pairs_single_none api element factory p (Or.inl fun h => h.2.2.1 hex)]
      simp [hrw, hig, string_join_nil]
    · have hex : p.name ∉ excluded_names := fun h => hig ((ignore_scan_table p.name).2 h)
      by_cases hd : api.gst_value_compare (element.get_property p) (factory.pure_property p)
          = GST_VALUE_EQUAL
      · rw [spec_pairs_single_none api element factory p (Or.inl fun h => h.2.2.2 hd)]
        simp [hrw, hig, hd, string_join_nil]
      · cases hs : api.gst_value_serialize (element.get_property p) with
        | none =>
          rw [spec_pairs_single_none api element factory p (Or.inr hs)]
          simp [hrw, hig, hd, hs, string_join_nil]
        | some s =>
          rw [spec_pairs_single_some api element factory p s ⟨hrw2.1, hrw2.2, hex, hd⟩ hs]
          simp [hrw, hig, hd, hs, string_join_cons, string_join_nil, pair_text,
            String.append_assoc]
  · rw [spec_pairs_single_none api element factory p
      (Or.inl fun h => hrw ((readwrite_mask_iff p.flags).2 ⟨h.1, h.2.1⟩))]
    simp [hrw, string_join_nil]

theorem spec_pairs_cons {V : Type} (api : GstValueApi V) (element : GstElement V)
    (factory : GstElementFactory V) (p : GParamSpec) (rest : List GParamSpec) :
    spec_pairs api element factory (p :: rest) =
      spec_pairs api element factory [p] ++ spec_pairs api element factory rest := by
  unfold spec_pairs
  rw [← List.filterMap_append]
  rfl

theorem spec_pairs_append {V : Type} (api : GstValueApi V) (element : GstElement V)
    (factory : GstElementFactory V) (l₁ l₂ : List GParamSpec) :
    spec_pairs api element factory (l₁ ++ l₂) =
      spec_pairs api element factory l₁ ++ spec_pairs api element factory l₂ := by
  unfold spec_pairs
  exact List.filterMap_append _ _ _

/-- The text after the whole loop: the pieces of the pairs, in list order, are
appended to the text before. -/
theorem launch_line_loop_text {V : Type} (api : GstValueApi V) (element : GstElement V)
    (factory : GstElementFactory V) (properties : List GParamSpec) (state : String × Log) :
    (launch_line_loop api element factory properties state).1 =
      state.1 ++ String.join ((spec_pairs api element factory properties).map pair_text) := by
  induction properties generalizing state with
  | nil => simp [launch_line_loop, spec_pairs, string_join_nil]
  | cons p rest ih =>
    rw [launch_line_loop, ih, launch_line_step_text, spec_pairs_cons api element factory p rest,
      List.map_append, string_join_append, String.append_assoc]

/-- The text `get_launch_line` returns for a device that resolves. -/
theorem get_launch_line_text {V : Type} (api : GstValueApi V) (device : GstDevice V)
    (log : Log) (element : GstElement V) (factory : GstElementFactory V)
    (feature_name : String)
    (h_element : device.create_element = some element)
    (h_factory : element.factory = some factory)
    (h_name : factory.feature_name = some feature_name) :
    (get_launch_line api device log).1 =
      some (spec_launch_line api element factory feature_name) := by
  unfold get_launch_line spec_launch_line
  simp only [h_element, h_factory, h_name]
  cases hp : element.properties with
  | none => simp [spec_pairs, string_join_nil]
  | some properties => simp [launch_line_loop_text]

theorem spec_pairs_mem {V : Type} (api : GstValueApi V) (element : GstElement V)
    (factory : GstElementFactory V) (properties : List GParamSpec)
    (pair : GParamSpec × String) (h : pair ∈ spec_pairs api element factory properties) :
    pair.1 ∈ properties ∧ selected api element factory pair.1 ∧
      api.gst_value_serialize (element.get_property pair.1) = some pair.2 := by
  unfold spec_pairs at h
  obtain ⟨p, hp, hf⟩ := List.mem_filterMap.1 h
  by_cases hsel : selected api element factory p
  · rw [if_pos hsel] at hf
    cases hs : api.gst_value_serialize (element.get_property p) with
    | none => rw [hs] at hf; simp at hf
    | some s =>
      rw [hs] at hf
      simp at hf
      subst hf
      exact ⟨hp, hsel, hs⟩
  · rw [if_neg hsel] at hf
    simp at hf

theorem spec_pairs_sublist {V : Type} (api : GstValueApi V) (element : GstElement V)
    (factory : GstElementFactory V) (properties : List GParamSpec) :
    ((spec_pairs api element factory properties).map Prod.fst).Sublist properties := by
  induction properties with
  | nil => simp [spec_pairs]
  | cons p rest ih =>
    rw [spec_pairs_cons]
    by_cases hsel : selected api element factory p
    · cases hs : api.gst_value_serialize (element.get_property p) with
      | none =>
        rw [spec_pairs_single_none api element factory p (Or.inr hs)]
        exact List.Sublist.cons p ih
      | some s =>
        rw [spec_pairs_single_some api element factory p s hsel hs]
        exact List.Sublist.cons₂ p ih
    · rw [spec_pairs_single_none api element factory p (Or.inl hsel)]
      exact List.Sublist.cons p ih

theorem spec_pairs_eq_nil {V : Type} (api : GstValueApi V) (element : GstElement V)
    (factory : GstElementFactory V) (properties : List GParamSpec)
    (h : ∀ p ∈ properties, ¬ selected api element factory p ∨
      api.gst_value_serialize (element.get_property p) = none) :
    spec_pairs api element factory properties = [] := by
  induction properties with
  | nil => rfl
  | cons p rest ih =>
    rw [spec_pairs_cons, spec_pairs_single_none api element factory p (h p (by simp)),
      ih (fun q hq => h q (by simp [hq]))]
    rfl

/-- When `get_launch_line` returns a text, the device resolved. -/
theorem get_launch_line_some_resolved {V : Type} (api : GstValueApi V) (device : GstDevice V)
    (log : Log) (text : String) (h : (get_launch_line api device log).1 = some text) :
    ∃ element factory feature_name, device.create_element = some element ∧
      element.factory = some factory ∧ factory.feature_name = some feature_name := by
  unfold get_launch_line at h
  cases he : device.create_element with
  | none => simp [he] at h
  | some element =>
    cases hf : element.factory with
    | none => simp [he, hf] at h
    | some factory =>
      cases hn : factory.feature_name with
      | none => simp [he, hf, hn] at h
      | some feature_name => exact ⟨element, factory, feature_name, rfl, hf, hn⟩

/-- For an unresolved device `get_launch_line` returns `NULL` and leaves the log
as it was. -/
theorem get_launch_line_unresolved {V : Type} (api : GstValueApi V) (device : GstDevice V)
    (log : Log) (h : unresolved device) : get_launch_line api device log = (none, log) := by
  unfold get_launch_line
  rcases h with h | ⟨element, he, hf⟩ | ⟨element, factory, he, hf, hn⟩
  · simp [h]
  · simp [he, hf]
  · simp [he, hf, hn]

/-! ## The claims on `get_launch_line` -/

/-- C1: for a device whose element, factory and factory name all resolve,
`get_launch_line` returns exactly the factory's type name followed by the piece
`" <name>=<s>"` of every property of the property list, in list order, that is
readable and writable, not excluded, differs from the default-instance value
and whose device-configured value serializes to a text `s`; nothing else is
appended. -/
theorem get_launch_line_is_spec_line {V : Type} (api : GstValueApi V)
    (device : GstDevice V) (log : Log) (element : GstElement V)
    (factory : GstElementFactory V) (feature_name : String)
    (h_element : device.create_element = some element)
    (h_factory : element.factory = some factory)
    (h_name : factory.feature_name = some feature_name) :
    (get_launch_line api device log).1 =
      some (feature_name ++ String.join
        ((spec_pairs api element factory (element.properties.getD [])).map pair_text)) :=
  get_launch_line_text api device log element factory feature_name h_element h_factory h_name

/-- C1, worked example: the type `videotestsrc` with the single differing
property `pattern=1` gives `videotestsrc pattern=1`. -/
theorem get_launch_line_is_spec_line_witness :
    videotestsrc_device.create_element = some videotestsrc_element ∧
    videotestsrc_element.factory = some videotestsrc_factory ∧
    videotestsrc_factory.feature_name = some "videotestsrc" ∧
    (get_launch_line sample_api videotestsrc_device []).1 = some "videotestsrc pattern=1" :=
  ⟨rfl, rfl, rfl,
    (get_launch_line_is_spec_line sample_api videotestsrc_device [] videotestsrc_element
      videotestsrc_factory "videotestsrc" rfl rfl rfl).trans (by decide)⟩

/-- C2: when `get_launch_line` returns a text, the text is the type name
followed by the pieces of a list of pairs, taken in order from the property list
of the resolved element, and every pair belongs to a property that is readable
and writable, is not named name, parent, direction, template or caps, and whose
device-configured value differs from the value on a fresh, unconfigured
instance (and the pair carries the serialized device-configured value). -/
theorem launch_line_pairs_invariant {V : Type} (api : GstValueApi V)
    (device : GstDevice V) (log : Log) (text : String)
    (h : (get_launch_line api device log).1 = some text) :
    ∃ (element : GstElement V) (factory : GstElementFactory V) (feature_name : String)
      (pairs : List (GParamSpec × String)),
      device.create_element = some element ∧
      element.factory = some factory ∧
      factory.feature_name = some feature_name ∧
      (pairs.map Prod.fst).Sublist (element.properties.getD []) ∧
      text = feature_name ++ String.join (pairs.map pair_text) ∧
      ∀ pair ∈ pairs,
        (pair.1.flags &&& G_PARAM_READABLE ≠ 0 ∧ pair.1.flags &&& G_PARAM_WRITABLE ≠ 0) ∧
        pair.1.name ∉ ["name", "parent", "direction", "template", "caps"] ∧
        api.gst_value_compare (element.get_property pair.1) (factory.pure_property pair.1)
          ≠ GST_VALUE_EQUAL ∧
        api.gst_value_serialize (element.get_property pair.1) = some pair.2 := by
  obtain ⟨element, factory, feature_name, he, hf, hn⟩ :=
    get_launch_line_some_resolved api device log text h
  refine ⟨element, factory, feature_name,
    spec_pairs api element factory (element.properties.getD []), he, hf, hn,
    spec_pairs_sublist api element factory _, ?_, ?_⟩
  · rw [get_launch_line_text api device log element factory feature_name he hf hn] at h
    exact (Option.some.inj h).symm
  · intro pair hpair
    obtain ⟨_, hsel, hs⟩ := spec_pairs_mem api element factory _ pair hpair
    exact ⟨⟨hsel.1, hsel.2.1⟩, hsel.2.2.1, hsel.2.2.2, hs⟩

/-- C2, worked example: the sample `videotestsrc` device returns a text. -/
theorem launch_line_pairs_invariant_witness :
    (get_launch_line sample_api videotestsrc_device []).1 = some "videotestsrc pattern=1" ∧
    ∃ (element : GstElement SampleValue) (factory : GstElementFactory SampleValue)
      (feature_name : String) (pairs : List (GParamSpec × String)),
      videotestsrc_device.create_element = some element ∧
      element.factory = some factory ∧
      factory.feature_name = some feature_name ∧
      (pairs.map Prod.fst).Sublist (element.properties.getD []) ∧
      "videotestsrc pattern=1" = feature_name ++ String.join (pairs.map pair_text) ∧
      ∀ pair ∈ pairs,
        (pair.1.flags &&& G_PARAM_READABLE ≠ 0 ∧ pair.1.flags &&& G_PARAM_WRITABLE ≠ 0) ∧
        pair.1.name ∉ ["name", "parent", "direction", "template", "caps"] ∧
        sample_api.gst_value_compare (element.get_property pair.1)
          (factory.pure_property pair.1) ≠ GST_VALUE_EQUAL ∧
        sample_api.gst_value_serialize (element.get_property pair.1) = some pair.2 :=
  ⟨by decide,
    launch_line_pairs_invariant sample_api videotestsrc_device [] "videotestsrc pattern=1"
      (by decide)⟩

/-- C3: for a device whose element type resolves and whose property list (empty
or absent included) holds no readable-and-writable, non-excluded property
differing from the default-instance value, `get_launch_line` returns exactly
the type name, with no trailing space and no pair. -/
theorem get_launch_line_no_differing {V : Type} (api : GstValueApi V)
    (device : GstDevice V) (log : Log) (element : GstElement V)
    (factory : GstElementFactory V) (feature_name : String)
    (h_element : device.create_element = some element)
    (h_factory : element.factory = some factory)
    (h_name : factory.feature_name = some feature_name)
    (h_default : ∀ p ∈ element.properties.getD [],
      p.flags &&& G_PARAM_READABLE ≠ 0 → p.flags &&& G_PARAM_WRITABLE ≠ 0 →
      p.name ∉ ["name", "parent", "direction", "template", "caps"] →
      api.gst_value_compare (element.get_property p) (factory.pure_property p)
        = GST_VALUE_EQUAL) :
    (get_launch_line api device log).1 = some feature_name := by
  rw [get_launch_line_text api device log element factory feature_name h_element h_factory
    h_name]
  unfold spec_launch_line
  rw [spec_pairs_eq_nil api element factory _
    (fun p hp => Or.inl fun hsel => hsel.2.2.2 (h_default p hp hsel.1 hsel.2.1 hsel.2.2.1))]
  simp [string_join_nil]

/-- C3, worked example: the type `alsasink` with no differing property gives
`alsasink`. -/
theorem get_launch_line_no_differing_witness :
    alsasink_device.create_element = some alsasink_element ∧
    alsasink_element.factory = some alsasink_factory ∧
    alsasink_factory.feature_name = some "alsasink" ∧
    (∀ p ∈ alsasink_element.properties.getD [],
      p.flags &&& G_PARAM_READABLE ≠ 0 → p.flags &&& G_PARAM_WRITABLE ≠ 0 →
      p.name ∉ ["name", "parent", "direction", "template", "caps"] →
      sample_api.gst_value_compare (alsasink_element.get_property p)
        (alsasink_factory.pure_property p) = GST_VALUE_EQUAL) ∧
    (get_launch_line sample_api alsasink_device []).1 = some "alsasink" :=
  ⟨rfl, rfl, rfl, by decide,
    get_launch_line_no_differing sample_api alsasink_device [] alsasink_element
      alsasink_factory "alsasink" rfl rfl rfl (by decide)⟩

/-- C4: `get_launch_line` returns `NULL` exactly when the device cannot be
turned into an element, or the element has no factory, or the factory has no
name; in these cases the whole result is `NULL` with the log untouched, whatever
the value library and the property list (no text is built, no property is
inspected).  In every other case it returns a text. -/
theorem get_launch_line_absent_iff {V : Type} (api : GstValueApi V)
    (device : GstDevice V) (log : Log) :
    (unresolved device ↔ get_launch_line api device log = (none, log)) ∧
    (unresolved device ↔ (get_launch_line api device log).1 = none) ∧
    (¬ unresolved device ↔ ∃ text, (get_launch_line api device log).1 = some text) := by
  have key : ¬ unresolved device → ∃ text, (get_launch_line api device log).1 = some text := by
    intro hn
    cases he : device.create_element with
    | none => exact absurd (Or.inl he) hn
    | some element =>
      cases hf : element.factory with
      | none => exact absurd (Or.inr (Or.inl ⟨element, he, hf⟩)) hn
      | some factory =>
        cases hname : factory.feature_name with
        | none => exact absurd (Or.inr (Or.inr ⟨element, factory, he, hf, hname⟩)) hn
        | some feature_name =>
          exact ⟨_, get_launch_line_text api device log element factory feature_name he hf hname⟩
  have back : (get_launch_line api device log).1 = none → unresolved device := by
    intro h
    by_contra hn
    obtain ⟨text, ht⟩ := key hn
    rw [ht] at h
    exact Option.noConfusion h
  refine ⟨⟨get_launch_line_unresolved api device log, fun h => back (by rw [h])⟩,
    ⟨fun h => by rw [get_launch_line_unresolved api device log h], back⟩,
    ⟨key, ?_⟩⟩
  rintro ⟨text, ht⟩ hu
  rw [get_launch_line_unresolved api device log hu] at ht
  exact Option.noConfusion ht


theorem spec_pairs_eq_view_pairs {V : Type} (api : GstValueApi V) (element : GstElement V)
    (factory : GstElementFactory V) (properties : List GParamSpec) :
    spec_pairs api element factory properties =
      view_pairs api (properties.map fun p =>
        (p, element.get_property p, factory.pure_property p)) := by
  unfold spec_pairs view_pairs
  rw [List.filterMap_map]
  rfl

/-- The text `get_launch_line` returns, as a function of the view of the device. -/
theorem get_launch_line_of_view {V : Type} (api : GstValueApi V) (device : GstDevice V)
    (log : Log) :
    (get_launch_line api device log).1 =
      (launch_view device).map fun view =>
        view.1 ++ String.join ((view_pairs api view.2).map pair_text) := by
  cases he : device.create_element with
  | none =>
    rw [get_launch_line_unresolved api device log (Or.inl he)]
    simp [launch_view, he]
  | some element =>
    cases hf : element.factory with
    | none =>
      rw [get_launch_line_unresolved api device log (Or.inr (Or.inl ⟨element, he, hf⟩))]
      simp [launch_view, he, hf]
    | some factory =>
      cases hn : factory.feature_name with
      | none =>
        rw [get_launch_line_unresolved api device log
          (Or.inr (Or.inr ⟨element, factory, he, hf, hn⟩))]
        simp [launch_view, he, hf, hn]
      | some feature_name =>
        rw [get_launch_line_text api device log element factory feature_name he hf hn]
        simp [launch_view, he, hf, hn, spec_launch_line, spec_pairs_eq_view_pairs]

/-- C6: for a device whose element type resolves and a property `p` of its
property list whose device-configured value cannot be serialized (whether it
differs from the default or not), `get_launch_line` still returns a text; the
text is the type name followed by the pieces of the properties before `p` and of
the properties after `p`, with no piece for `p`; and it is the launch line of
the same device with `p` removed from the property list. -/
theorem get_launch_line_skips_unserializable {V : Type} (api : GstValueApi V)
    (device : GstDevice V) (log : Log) (element : GstElement V)
    (factory : GstElementFactory V) (feature_name : String)
    (before after : List GParamSpec) (p : GParamSpec)
    (h_element : device.create_element = some element)
    (h_factory : element.factory = some factory)
    (h_name : factory.feature_name = some feature_name)
    (h_properties : element.properties = some (before ++ p :: after))
    (h_unserializable : api.gst_value_serialize (element.get_property p) = none) :
    (get_launch_line api device log).1 =
      some (feature_name
        ++ String.join ((spec_pairs api element factory before).map pair_text)
        ++ String.join ((spec_pairs api element factory after).map pair_text)) ∧
    (get_launch_line api device log).1 =
      (get_launch_line api
        { device with
          create_element := some { element with properties := some (before ++ after) } }
        log).1 := by
  have h1 : (get_launch_line api device log).1 =
      some (feature_name
        ++ String.join ((spec_pairs api element factory before).map pair_text)
        ++ String.join ((spec_pairs api element factory after).map pair_text)) := by
    rw [get_launch_line_text api device log element factory feature_name h_element h_factory
      h_name]
    unfold spec_launch_line
    rw [h_properties, Option.getD_some, spec_pairs_append, spec_pairs_cons,
      spec_pairs_single_none api element factory p (Or.inr h_unserializable),
      List.nil_append, List.map_append, string_join_append, String.append_assoc]
  refine ⟨h1, ?_⟩
  rw [h1, get_launch_line_text api _ log { element with properties := some (before ++ after) }
    factory feature_name rfl h_factory h_name]
  unfold spec_launch_line
  rw [Option.getD_some, spec_pairs_append, List.map_append, string_join_append,
    String.append_assoc]
  rfl

/-- C6, worked example: with the unserializable `blob`, readable and writable,
not excluded and differing from its default, between `name` and `pattern`, the
launch line is `videotestsrc pattern=1`, as without `blob`. -/
theorem get_launch_line_skips_unserializable_witness :
    blob_device.create_element = some blob_element ∧
    blob_element.factory = some videotestsrc_factory ∧
    videotestsrc_factory.feature_name = some "videotestsrc" ∧
    blob_element.properties = some ([name_spec] ++ blob_spec :: [pattern_spec]) ∧
    sample_api.gst_value_serialize (blob_element.get_property blob_spec) = none ∧
    selected sample_api blob_element videotestsrc_factory blob_spec ∧
    (get_launch_line sample_api blob_device []).1 = some "videotestsrc pattern=1" ∧
    (get_launch_line sample_api blob_device []).1 =
      (get_launch_line sample_api
        { blob_device with
          create_element :=
            some { blob_element with properties := some ([name_spec] ++ [pattern_spec]) } }
        []).1 :=
  ⟨rfl, rfl, rfl, rfl, by decide, by decide,
    (get_launch_line_skips_unserializable sample_api blob_device [] blob_element
      videotestsrc_factory "videotestsrc" [name_spec] [pattern_spec] blob_spec
      rfl rfl rfl rfl (by decide)).1.trans (by decide),
    (get_launch_line_skips_unserializable sample_api blob_device [] blob_element
      videotestsrc_factory "videotestsrc" [name_spec] [pattern_spec] blob_spec
      rfl rfl rfl rfl (by decide)).2⟩

/-- C8: the text `get_launch_line` returns is determined by the resolved type
name, the property list and the configured and default values of the listed
properties: two calls on devices that agree on these (in particular two calls on
the same unchanged device), from any two states of the logging sink, return the
same result, both `NULL` or both the same text. -/
theorem get_launch_line_deterministic {V : Type} (api : GstValueApi V)
    (device₁ device₂ : GstDevice V) (log₁ log₂ : Log)
    (h_same : launch_view device₁ = launch_view device₂) :
    (get_launch_line api device₁ log₁).1 = (get_launch_line api device₂ log₂).1 := by
  rw [get_launch_line_of_view, get_launch_line_of_view, h_same]

/-- C8, worked example: the sample `videotestsrc` device, called again after
other records were logged and under another display name, gives the same text. -/
theorem get_launch_line_deterministic_witness :
    launch_view videotestsrc_device = launch_view videotestsrc_device_again ∧
    (get_launch_line sample_api videotestsrc_device []).1 =
      (get_launch_line sample_api videotestsrc_device_again
        [⟨GstDebugLevel.INFO, "Probing devices...\n\n"⟩]).1 :=
  ⟨by decide,
    get_launch_line_deterministic sample_api videotestsrc_device videotestsrc_device_again
      [] [⟨GstDebugLevel.INFO, "Probing devices...\n\n"⟩] (by decide)⟩

/-! ## The claims on `print_device` and its callbacks -/

theorem printf_u_eq_toString (u : Nat) : printf_u u = toString u := rfl

theorem printf_08x_length (u : Nat) (h : u < 2 ^ 32) : (printf_08x u).length = 8 := by
  have hlen : (Nat.toDigits 16 u).length ≤ 8 :=
    Nat.toDigitsCore_length 16 (by decide) (u + 1) u 8 (by simpa using h) (by decide)
  simp only [printf_08x, String.length, List.length_append, List.length_replicate]
  omega

theorem hex_digit_index (k : Nat) (h : k < 16) :
    "0123456789abcdef".toList.indexOf (Nat.digitChar k) = k := by
  interval_cases k <;> decide

theorem hex_fold_toDigitsCore (fuel n : Nat) (rest : List Char) (h : n < fuel) :
    (Nat.toDigitsCore 16 fuel n rest).foldl
        (fun acc c => acc * 16 + "0123456789abcdef".toList.indexOf c) 0 =
      rest.foldl (fun acc c => acc * 16 + "0123456789abcdef".toList.indexOf c) n := by
  induction fuel generalizing n rest with
  | zero => omega
  | succ fuel ih =>
    rw [Nat.toDigitsCore]
    by_cases h0 : n / 16 = 0
    · simp only [h0, if_true, List.foldl_cons]
      rw [hex_digit_index _ (Nat.mod_lt _ (by decide))]
      congr 1
      omega
    · simp only [h0, if_false]
      rw [ih (n / 16) _ (by omega), List.foldl_cons,
        hex_digit_index _ (Nat.mod_lt _ (by decide))]
      congr 1
      omega

theorem hex_fold_zeros (k : Nat) (rest : List Char) :
    (List.replicate k '0' ++ rest).foldl
        (fun acc c => acc * 16 + "0123456789abcdef".toList.indexOf c) 0 =
      rest.foldl (fun acc c => acc * 16 + "0123456789abcdef".toList.indexOf c) 0 := by
  induction k with
  | zero => rfl
  | succ k ih =>
    rw [List.replicate_succ, List.cons_append, List.foldl_cons]
    exact ih

theorem printf_08x_value (u : Nat) : hex_value (printf_08x u).toList = u := by
  unfold hex_value printf_08x
  show (List.replicate _ '0' ++ Nat.toDigits 16 u).foldl _ 0 = u
  rw [hex_fold_zeros, Nat.toDigits, hex_fold_toDigitsCore (u + 1) u [] (by omega)]
  rfl

theorem hex_digit_mem (k : Nat) (h : k < 16) :
    Nat.digitChar k ∈ "0123456789abcdef".toList := by
  interval_cases k <;> decide

theorem toDigitsCore_hex_chars (fuel n : Nat) (rest : List Char)
    (h : ∀ c ∈ rest, c ∈ "0123456789abcdef".toList) :
    ∀ c ∈ Nat.toDigitsCore 16 fuel n rest, c ∈ "0123456789abcdef".toList := by
  induction fuel generalizing n rest with
  | zero => simpa [Nat.toDigitsCore] using h
  | succ fuel ih =>
    have hcons : ∀ c ∈ Nat.digitChar (n % 16) :: rest, c ∈ "0123456789abcdef".toList := by
      intro c hc
      rcases List.mem_cons.1 hc with hc | hc
      · rw [hc]
        exact hex_digit_mem _ (Nat.mod_lt _ (by decide))
      · exact h c hc
    rw [Nat.toDigitsCore]
    by_cases h0 : n / 16 = 0
    · simp only [h0, if_true]
      exact hcons
    · simp only [h0, if_false]
      exact ih (n / 16) _ hcons

theorem printf_08x_chars (u : Nat) :
    ∀ c ∈ (printf_08x u).toList, c ∈ "0123456789abcdef".toList := by
  intro c hc
  have hc2 : c ∈ List.replicate (8 - (Nat.toDigits 16 u).length) '0' ++ Nat.toDigits 16 u := hc
  rcases List.mem_append.1 hc2 with hc3 | hc3
  · rw [(List.mem_replicate.1 hc3).2]
    decide
  · exact toDigitsCore_hex_chars (u + 1) u [] (by simp) c hc3

theorem print_structure_field_eq {V : Type} (api : GstValueApi V) (field_id : String)
    (value : V) (log : Log) :
    print_structure_field api field_id value log =
      (true, log ++ [⟨GstDebugLevel.INFO, "\n\t\t" ++ spec_entry api field_id value⟩]) := by
  unfold print_structure_field spec_entry GST_INFO
  by_cases hu : api.G_VALUE_HOLDS_UINT value = true
  · simp [hu, printf_u_eq_toString, String.append_assoc]
  · cases hs : api.gst_value_serialize value <;> simp [hu, hs, String.append_assoc]

theorem foreach_print_structure_field {V : Type} (api : GstValueApi V)
    (fields : List (String × V)) (log : Log) :
    gst_structure_foreach (print_structure_field api) fields log =
      (true, log ++ fields.map fun field =>
        ⟨GstDebugLevel.INFO, "\n\t\t" ++ spec_entry api field.1 field.2⟩) := by
  induction fields generalizing log with
  | nil => simp [gst_structure_foreach]
  | cons field rest ih =>
    rw [gst_structure_foreach]
    simp only [print_structure_field_eq, if_true]
    rw [ih]
    simp

/-- C7: for a device with launch line `line`, `print_device` writes, after the
listing and the records of the launch-line computation, exactly one outcome
chosen by the classes of the device, first match winning: for class `Source` the
line `gst-launch-1.0 line ! ...`, otherwise for class `Sink` the line
`gst-launch-1.0 ... ! line`, otherwise for class `CameraSource` the two-branch
camera template, otherwise no suggestion line; the closing empty line follows. -/
theorem print_device_suggestion {V : Type} (api : GstValueApi V) (device : GstDevice V)
    (modified : Bool) (log : Log) (line : String)
    (h_line : (get_launch_line api device
      (print_device_listing api device modified log)).1 = some line) :
    print_device api device modified log =
      (get_launch_line api device (print_device_listing api device modified log)).2
        ++ (if device.has_classes "Source" = true then
              [⟨GstDebugLevel.INFO, "\tgst-launch-1.0 " ++ line ++ " ! ...\n"⟩]
            else if device.has_classes "Sink" = true then
              [⟨GstDebugLevel.INFO, "\tgst-launch-1.0 ... ! " ++ line ++ "\n"⟩]
            else if device.has_classes "CameraSource" = true then
              [⟨GstDebugLevel.INFO, "\tgst-launch-1.0 " ++ line
                ++ ".vfsrc name=camerasrc ! ... camerasrc.vidsrc ! [video/x-h264] ... \n"⟩]
            else [])
        ++ [⟨GstDebugLevel.INFO, "\n"⟩] := by
  unfold print_device
  simp only [h_line, printf_s, GST_INFO]
  by_cases h1 : device.has_classes "Source" = true
  · simp [h1]
  · by_cases h2 : device.has_classes "Sink" = true
    · simp [h1, h2]
    · by_cases h3 : device.has_classes "CameraSource" = true
      · simp [h1, h2, h3, String.append_assoc]
      · simp [h1, h2, h3]

/-- C7, worked examples: class `Source` with launch line `videotestsrc pattern=1`
suggests `videotestsrc pattern=1 ! ...`; class `Sink` with launch line
`alsasink` suggests `... ! alsasink`. -/
theorem print_device_suggestion_witness :
    ((get_launch_line sample_api videotestsrc_device
        (print_device_listing sample_api videotestsrc_device false [])).1
      = some "videotestsrc pattern=1" ∧
     print_device sample_api videotestsrc_device false [] =
      [⟨GstDebugLevel.INFO, "\nDevice found:\n\n"⟩,
       ⟨GstDebugLevel.INFO, "\tname  : Test pattern\n"⟩,
       ⟨GstDebugLevel.INFO, "\tclass : Video/Source\n"⟩,
       ⟨GstDebugLevel.INFO, "\tgst-launch-1.0 videotestsrc pattern=1 ! ...\n"⟩,
       ⟨GstDebugLevel.INFO, "\n"⟩]) ∧
    ((get_launch_line sample_api alsasink_device
        (print_device_listing sample_api alsasink_device true [])).1 = some "alsasink" ∧
     print_device sample_api alsasink_device true [] =
      [⟨GstDebugLevel.INFO, "\nDevice modified:\n\n"⟩,
       ⟨GstDebugLevel.INFO, "\tname  : Speakers\n"⟩,
       ⟨GstDebugLevel.INFO, "\tclass : Audio/Sink\n"⟩,
       ⟨GstDebugLevel.INFO, "\tgst-launch-1.0 ... ! alsasink\n"⟩,
       ⟨GstDebugLevel.INFO, "\n"⟩]) :=
  ⟨⟨by decide,
    (print_device_suggestion sample_api videotestsrc_device false []
      "videotestsrc pattern=1" (by decide)).trans (by decide)⟩,
   ⟨by decide,
    (print_device_suggestion sample_api alsasink_device true [] "alsasink"
      (by decide)).trans (by decide)⟩⟩

/-- C5, at the failing input: for the sample device of class `Source` for which
no element can be created, `get_launch_line` returns `NULL`, and `print_device`
still writes a `gst-launch-1.0` line, made from the `NULL` text. -/
theorem print_device_unresolved_source :
    (get_launch_line sample_api unresolved_source_device
      (print_device_listing sample_api unresolved_source_device false [])).1 = none ∧
    print_device sample_api unresolved_source_device false [] =
      [⟨GstDebugLevel.INFO, "\nDevice found:\n\n"⟩,
       ⟨GstDebugLevel.INFO, "\tname  : Ghost camera\n"⟩,
       ⟨GstDebugLevel.INFO, "\tclass : Video/Source\n"⟩,
       ⟨GstDebugLevel.INFO, "\tgst-launch-1.0 (null) ! ...\n"⟩,
       ⟨GstDebugLevel.INFO, "\n"⟩] := by
  decide

/-- C9: the callback `print_structure_field` answers `TRUE` in every case and
writes one record, the entry after a line break and two tabs.  For a value
holding a 32-bit unsigned integer `u` the entry is `n = <u in decimal> (0x<u in
hexadecimal>)`, whatever the generic serializer would answer; the hexadecimal
part has 8 characters, all lowercase hexadecimal digits, and denotes `u`.  For
a value of another type that serializes to `s` the entry is `n = s`; for a
value of another type without serialization the entry is the marker
`n - could not serialise field of type <type name>`.  So `gst_structure_foreach`
visits every entry of the bag, in order. -/
theorem print_structure_field_rendering {V : Type} (api : GstValueApi V)
    (field_id : String) (value : V) (log : Log) :
    (print_structure_field api field_id value log).1 = true ∧
    (api.G_VALUE_HOLDS_UINT value = true →
      ∀ serialize : V → Option String,
        (print_structure_field { api with gst_value_serialize := serialize }
            field_id value log).2 =
          log ++ [⟨GstDebugLevel.INFO, "\n\t\t" ++ field_id ++ " = "
            ++ toString (api.g_value_get_uint value % 2 ^ 32) ++ " (0x"
            ++ printf_08x (api.g_value_get_uint value % 2 ^ 32) ++ ")"⟩]) ∧
    ((printf_08x (api.g_value_get_uint value % 2 ^ 32)).length = 8 ∧
      (∀ c ∈ (printf_08x (api.g_value_get_uint value % 2 ^ 32)).toList,
        c ∈ "0123456789abcdef".toList) ∧
      hex_value (printf_08x (api.g_value_get_uint value % 2 ^ 32)).toList =
        api.g_value_get_uint value % 2 ^ 32) ∧
    (api.G_VALUE_HOLDS_UINT value = false →
      ∀ s : String, api.gst_value_serialize value = some s →
        (print_structure_field api field_id value log).2 =
          log ++ [⟨GstDebugLevel.INFO, "\n\t\t" ++ field_id ++ " = " ++ s⟩]) ∧
    (api.G_VALUE_HOLDS_UINT value = false → api.gst_value_serialize value = none →
      (print_structure_field api field_id value log).2 =
        log ++ [⟨GstDebugLevel.INFO, "\n\t\t" ++ field_id
          ++ " - could not serialise field of type " ++ api.G_VALUE_TYPE_NAME value⟩]) ∧
    (∀ fields : List (String × V),
      gst_structure_foreach (print_structure_field api) fields log =
        (true, log ++ fields.map fun field =>
          ⟨GstDebugLevel.INFO, "\n\t\t" ++ spec_entry api field.1 field.2⟩)) := by
  refine ⟨by rw [print_structure_field_eq], ?_, ⟨?_, ?_, ?_⟩, ?_, ?_, ?_⟩
  · intro hu serialize
    rw [print_structure_field_eq]
    simp [spec_entry, hu, String.append_assoc]
  · exact printf_08x_length _ (Nat.mod_lt _ (by decide))
  · exact printf_08x_chars _
  · exact printf_08x_value _
  · intro hu s hs
    rw [print_structure_field_eq]
    simp [spec_entry, hu, hs, String.append_assoc]
  · intro hu hs
    rw [print_structure_field_eq]
    simp [spec_entry, hu, hs, String.append_assoc]
  · exact fun fields => foreach_print_structure_field api fields log

/-- C9, worked example: the unsigned integer `2225078273` is rendered as
`2225078273 (0x84a00001)` even under a serializer that answers `NULL`, and the
three entries of the sample property bag are all rendered, in order. -/
theorem print_structure_field_rendering_witness :
    (print_structure_field { sample_api with gst_value_serialize := fun _ => none }
        "api.v4l2.cap.capabilities" ⟨"guint", some 2225078273, some "2225078273"⟩ []).2 =
      [⟨GstDebugLevel.INFO, "\n\t\tapi.v4l2.cap.capabilities = 2225078273 (0x84a00001)"⟩] ∧
    gst_structure_foreach (print_structure_field sample_api)
        [("api.v4l2.cap.capabilities", ⟨"guint", some 2225078273, some "2225078273"⟩),
         ("device.path", ⟨"gchararray", none, some "/dev/video0"⟩),
         ("device.handle", ⟨"gpointer", none, none⟩)] [] =
      (true,
       [⟨GstDebugLevel.INFO, "\n\t\tapi.v4l2.cap.capabilities = 2225078273 (0x84a00001)"⟩,
        ⟨GstDebugLevel.INFO, "\n\t\tdevice.path = /dev/video0"⟩,
        ⟨GstDebugLevel.INFO,
          "\n\t\tdevice.handle - could not serialise field of type gpointer"⟩]) :=
  ⟨((print_structure_field_rendering sample_api "api.v4l2.cap.capabilities"
      ⟨"guint", some 2225078273, some "2225078273"⟩ []).2.1 (by decide)
      (fun _ => none)).trans (by decide),
   ((print_structure_field_rendering sample_api "api.v4l2.cap.capabilities"
      ⟨"guint", some 2225078273, some "2225078273"⟩ []).2.2.2.2.2 _).trans (by decide)⟩

/-- C10, at the failing input: for the sample device whose capability structure
holds the field `handle` without serialization, `print_device` writes the
entry `, handle=(null)` in the capability listing, with no marker and no type
name. -/
theorem print_device_unserializable_caps_field :
    sample_api.gst_value_serialize ⟨"gpointer", none, none⟩ = none ∧
    print_device sample_api blob_caps_device false [] =
      [⟨GstDebugLevel.INFO, "\nDevice found:\n\n"⟩,
       ⟨GstDebugLevel.INFO, "\tname  : Encoder camera\n"⟩,
       ⟨GstDebugLevel.INFO, "\tclass : Video/Source\n"⟩,
       ⟨GstDebugLevel.INFO, "\tcaps  : video/x-h264"⟩,
       ⟨GstDebugLevel.INFO, ", width=640"⟩,
       ⟨GstDebugLevel.INFO, ", handle=(null)"⟩,
       ⟨GstDebugLevel.INFO, ", height=480"⟩,
       ⟨GstDebugLevel.INFO, "\n"⟩,
       ⟨GstDebugLevel.INFO, "\tgst-launch-1.0 videotestsrc pattern=1 ! ...\n"⟩,
       ⟨GstDebugLevel.INFO, "\n"⟩] := by
  decide

/-! ## The log of `get_launch_line` -/

theorem spec_warnings_single_some {V : Type} (api : GstValueApi V) (element : GstElement V)
    (factory : GstElementFactory V) (p : GParamSpec)
    (hsel : selected api element factory p)
    (hs : api.gst_value_serialize (element.get_property p) = none) :
    spec_warnings api element factory [p] =
      [⟨GstDebugLevel.WARNING,
        "Could not serialize property " ++ element.object_name ++ ":" ++ p.name⟩] := by
  unfold spec_warnings
  rw [List.filterMap_cons, if_pos ⟨hsel, hs⟩]
  rfl

theorem spec_warnings_single_none {V : Type} (api : GstValueApi V) (element : GstElement V)
    (factory : GstElementFactory V) (p : GParamSpec)
    (h : ¬ (selected api element factory p ∧
      api.gst_value_serialize (element.get_property p) = none)) :
    spec_warnings api element factory [p] = [] := by
  unfold spec_warnings
  rw [List.filterMap_cons, if_neg h]
  rfl

theorem spec_warnings_append {V : Type} (api : GstValueApi V) (element : GstElement V)
    (factory : GstElementFactory V) (l₁ l₂ : List GParamSpec) :
    spec_warnings api element factory (l₁ ++ l₂) =
      spec_warnings api element factory l₁ ++ spec_warnings api element factory l₂ := by
  unfold spec_warnings
  exact List.filterMap_append _ _ _

theorem spec_warnings_cons {V : Type} (api : GstValueApi V) (element : GstElement V)
    (factory : GstElementFactory V) (p : GParamSpec) (rest : List GParamSpec) :
    spec_warnings api element factory (p :: rest) =
      spec_warnings api element factory [p] ++ spec_warnings api element factory rest :=
  spec_warnings_append api element factory [p] rest

/-- The log after one iteration: the warning of the property, if it has one, is
appended to the log before. -/
theorem launch_line_step_log {V : Type} (api : GstValueApi V) (element : GstElement V)
    (factory : GstElementFactory V) (p : GParamSpec) (state : String × Log) :
    (launch_line_step api element factory p state).2 =
      state.2 ++ spec_warnings api element factory [p] := by
  unfold launch_line_step
  by_cases hrw : p.flags &&& G_PARAM_READWRITE = G_PARAM_READWRITE
  · have hrw2 := (readwrite_mask_iff p.flags).1 hrw
    by_cases hig : ignore_scan p.name ignored_propnames false = true
    · have hex := (ignore_scan_table p.name).1 hig
      rw [spec_warnings_single_none api element factory p (fun h => h.1.2.2.1 hex)]
      simp [hrw, hig]
    · have hex : p.name ∉ excluded_names := fun h => hig ((ignore_scan_table p.name).2 h)
      by_cases hd : api.gst_value_compare (element.get_property p) (factory.pure_property p)
          = GST_VALUE_EQUAL
      · rw [spec_warnings_single_none api element factory p (fun h => h.1.2.2.2 hd)]
        simp [hrw, hig, hd]
      · cases hs : api.gst_value_serialize (element.get_property p) with
        | none =>
          rw [spec_warnings_single_some api element factory p ⟨hrw2.1, hrw2.2, hex, hd⟩ hs]
          simp [hrw, hig, hd, hs, GST_WARNING]
        | some s =>
          rw [spec_warnings_single_none api element factory p
            (fun h => Option.noConfusion (hs.symm.trans h.2))]
          simp [hrw, hig, hd, hs]
  · rw [spec_warnings_single_none api element factory p
      (fun h => hrw ((readwrite_mask_iff p.flags).2 ⟨h.1.1, h.1.2.1⟩))]
    simp [hrw]

/-- The log after the whole loop: the warnings, in list order, are appended to
the log before. -/
theorem launch_line_loop_log {V : Type} (api : GstValueApi V) (element : GstElement V)
    (factory : GstElementFactory V) (properties : List GParamSpec) (state : String × Log) :
    (launch_line_loop api element factory properties state).2 =
      state.2 ++ spec_warnings api element factory properties := by
  induction properties generalizing state with
  | nil => simp [launch_line_loop, spec_warnings]
  | cons p rest ih =>
    rw [launch_line_loop, ih, launch_line_step_log, spec_warnings_cons api element factory p rest,
      List.append_assoc]

/-- The log after `get_launch_line` for a device that resolves. -/
theorem get_launch_line_log {V : Type} (api : GstValueApi V) (device : GstDevice V)
    (log : Log) (element : GstElement V) (factory : GstElementFactory V)
    (feature_name : String)
    (h_element : device.create_element = some element)
    (h_factory : element.factory = some factory)
    (h_name : factory.feature_name = some feature_name) :
    (get_launch_line api device log).2 =
      log ++ spec_warnings api element factory (element.properties.getD []) := by
  unfold get_launch_line
  simp only [h_element, h_factory, h_name]
  cases hp : element.properties with
  | none => simp [spec_warnings]
  | some properties => simp [launch_line_loop_log]

/-- The call `get_launch_line` only appends to the log. -/
theorem get_launch_line_appends {V : Type} (api : GstValueApi V) (device : GstDevice V)
    (log : Log) : ∃ rest, (get_launch_line api device log).2 = log ++ rest := by
  cases he : device.create_element with
  | none =>
    exact ⟨[], by rw [get_launch_line_unresolved api device log (Or.inl he)]; simp⟩
  | some element =>
    cases hf : element.factory with
    | none =>
      exact ⟨[], by
        rw [get_launch_line_unresolved api device log (Or.inr (Or.inl ⟨element, he, hf⟩))]
        simp⟩
    | some factory =>
      cases hn : factory.feature_name with
      | none =>
        exact ⟨[], by
          rw [get_launch_line_unresolved api device log
            (Or.inr (Or.inr ⟨element, factory, he, hf, hn⟩))]
          simp⟩
      | some feature_name =>
        exact ⟨_, get_launch_line_log api device log element factory feature_name he hf hn⟩

/-! ## The claims on the warning and on the comparison -/

/-- C11, as the claim states it, fails: for the sample device with the property
`blob` (readable and writable, not excluded, differing from its default, without
serialization, of type `gpointer`), `get_launch_line` logs the single warning
`Could not serialize property videotestsrc0:blob`, which names the property but
not the type of its value. -/
theorem launch_line_warning_omits_type :
    selected sample_api blob_element videotestsrc_factory blob_spec ∧
    sample_api.gst_value_serialize (blob_element.get_property blob_spec) = none ∧
    sample_api.G_VALUE_TYPE_NAME (blob_element.get_property blob_spec) = "gpointer" ∧
    (get_launch_line sample_api blob_device []).2 =
      [⟨GstDebugLevel.WARNING, "Could not serialize property videotestsrc0:blob"⟩] ∧
    names_text "Could not serialize property videotestsrc0:blob" blob_spec.name ∧
    ¬ names_text "Could not serialize property videotestsrc0:blob"
      (sample_api.G_VALUE_TYPE_NAME (blob_element.get_property blob_spec)) := by
  decide

/-- C11, amended: for a device that resolves and a property `p` of its property
list that is readable and writable, not excluded, differs from the default and
cannot be serialized, `get_launch_line` logs exactly one warning for `p`,
between the warnings of the properties before `p` and those of the properties
after `p`; the warning is `Could not serialize property <element name>:<property
name>`: it names the element and the property. -/
theorem get_launch_line_warns_unserializable {V : Type} (api : GstValueApi V)
    (device : GstDevice V) (log : Log) (element : GstElement V)
    (factory : GstElementFactory V) (feature_name : String)
    (before after : List GParamSpec) (p : GParamSpec)
    (h_element : device.create_element = some element)
    (h_factory : element.factory = some factory)
    (h_name : factory.feature_name = some feature_name)
    (h_properties : element.properties = some (before ++ p :: after))
    (h_readable : p.flags &&& G_PARAM_READABLE ≠ 0)
    (h_writable : p.flags &&& G_PARAM_WRITABLE ≠ 0)
    (h_not_excluded : p.name ∉ ["name", "parent", "direction", "template", "caps"])
    (h_differs : api.gst_value_compare (element.get_property p) (factory.pure_property p)
      ≠ GST_VALUE_EQUAL)
    (h_unserializable : api.gst_value_serialize (element.get_property p) = none) :
    (get_launch_line api device log).2 =
      log ++ spec_warnings api element factory before
        ++ [⟨GstDebugLevel.WARNING,
              "Could not serialize property " ++ element.object_name ++ ":" ++ p.name⟩]
        ++ spec_warnings api element factory after ∧
    names_text ("Could not serialize property " ++ element.object_name ++ ":" ++ p.name)
      element.object_name ∧
    names_text ("Could not serialize property " ++ element.object_name ++ ":" ++ p.name)
      p.name := by
  refine ⟨?_, ?_, ?_⟩
  · rw [get_launch_line_log api device log element factory feature_name h_element h_factory
      h_name, h_properties, Option.getD_some, spec_warnings_append, spec_warnings_cons,
      spec_warnings_single_some api element factory p
        ⟨h_readable, h_writable, h_not_excluded, h_differs⟩ h_unserializable]
    simp [List.append_assoc]
  · exact ⟨"Could not serialize property ".toList, (":" ++ p.name).toList, by
      simp [String.append_assoc]⟩
  · exact ⟨("Could not serialize property " ++ element.object_name ++ ":").toList, [], by
      simp [String.append_assoc]⟩

/-- C11, worked example: the sample device with the property `blob` logs the
warning `Could not serialize property videotestsrc0:blob`, once. -/
theorem get_launch_line_warns_unserializable_witness :
    blob_device.create_element = some blob_element ∧
    blob_element.factory = some videotestsrc_factory ∧
    videotestsrc_factory.feature_name = some "videotestsrc" ∧
    blob_element.properties = some ([name_spec] ++ blob_spec :: [pattern_spec]) ∧
    selected sample_api blob_element videotestsrc_factory blob_spec ∧
    sample_api.gst_value_serialize (blob_element.get_property blob_spec) = none ∧
    (get_launch_line sample_api blob_device []).2 =
      [⟨GstDebugLevel.WARNING, "Could not serialize property videotestsrc0:blob"⟩] :=
  ⟨rfl, rfl, rfl, rfl, by decide, by decide,
    (get_launch_line_warns_unserializable sample_api blob_device [] blob_element
      videotestsrc_factory "videotestsrc" [name_spec] [pattern_spec] blob_spec
      rfl rfl rfl rfl (by decide) (by decide) (by decide) (by decide) (by decide)).1.trans
      (by decide)⟩

/-- C12, as the claim states it, fails: under the sample library in which a
not-a-number value compares unordered with itself, the property `freq` of the
sample `audiotestsrc` device is readable and writable, not excluded, and its
device-configured and default-instance values serialize to the same text `nan`;
`get_launch_line` still appends the pair `freq=nan`. -/
theorem launch_line_keeps_equal_serialization :
    audiotestsrc_element.properties = some [freq_spec] ∧
    readable freq_spec ∧ writable freq_spec ∧ freq_spec.name ∉ excluded_names ∧
    nan_api.gst_value_serialize (audiotestsrc_element.get_property freq_spec) = some "nan" ∧
    nan_api.gst_value_serialize (audiotestsrc_factory.pure_property freq_spec) = some "nan" ∧
    (get_launch_line nan_api audiotestsrc_device []).1 = some "audiotestsrc freq=nan" := by
  decide

/-- C12, amended: the decision to include a property is the comparison
`gst_value_compare`.  For a device that resolves and a property `p` of its
property list whose device-configured value and default-instance value compare
`GST_VALUE_EQUAL`, the property is treated as equal to its default: no pair for
it is appended, the text is the type name followed by the pieces of the
properties before `p` and of the properties after `p`, and it is the launch
line of the same device with `p` removed from the property list. -/
theorem get_launch_line_skips_equal {V : Type} (api : GstValueApi V)
    (device : GstDevice V) (log : Log) (element : GstElement V)
    (factory : GstElementFactory V) (feature_name : String)
    (before after : List GParamSpec) (p : GParamSpec)
    (h_element : device.create_element = some element)
    (h_factory : element.factory = some factory)
    (h_name : factory.feature_name = some feature_name)
    (h_properties : element.properties = some (before ++ p :: after))
    (h_equal : api.gst_value_compare (element.get_property p) (factory.pure_property p)
      = GST_VALUE_EQUAL) :
    (get_launch_line api device log).1 =
      some (feature_name
        ++ String.join ((spec_pairs api element factory before).map pair_text)
        ++ String.join ((spec_pairs api element factory after).map pair_text)) ∧
    (get_launch_line api device log).1 =
      (get_launch_line api
        { device with
          create_element := some { element with properties := some (before ++ after) } }
        log).1 := by
  have h1 : (get_launch_line api device log).1 =
      some (feature_name
        ++ String.join ((spec_pairs api element factory before).map pair_text)
        ++ String.join ((spec_pairs api element factory after).map pair_text)) := by
    rw [get_launch_line_text api device log element factory feature_name h_element h_factory
      h_name]
    unfold spec_launch_line
    rw [h_properties, Option.getD_some, spec_pairs_append, spec_pairs_cons,
      spec_pairs_single_none api element factory p (Or.inl fun hsel => hsel.2.2.2 h_equal),
      List.nil_append, List.map_append, string_join_append, String.append_assoc]
  refine ⟨h1, ?_⟩
  rw [h1, get_launch_line_text api _ log { element with properties := some (before ++ after) }
    factory feature_name rfl h_factory h_name]
  unfold spec_launch_line
  rw [Option.getD_some, spec_pairs_append, List.map_append, string_join_append,
    String.append_assoc]
  rfl

/-- C12, worked example: the property `device` of the sample `alsasink` device
compares equal to its default, and the launch line is `alsasink`, as without
`device`. -/
theorem get_launch_line_skips_equal_witness :
    alsasink_device.create_element = some alsasink_element ∧
    alsasink_element.factory = some alsasink_factory ∧
    alsasink_factory.feature_name = some "alsasink" ∧
    alsasink_element.properties = some ([name_spec] ++ device_spec :: [stats_spec]) ∧
    sample_api.gst_value_compare (alsasink_element.get_property device_spec)
      (alsasink_factory.pure_property device_spec) = GST_VALUE_EQUAL ∧
    (get_launch_line sample_api alsasink_device []).1 = some "alsasink" ∧
    (get_launch_line sample_api alsasink_device []).1 =
      (get_launch_line sample_api
        { alsasink_device with
          create_element :=
            some { alsasink_element with properties := some ([name_spec] ++ [stats_spec]) } }
        []).1 :=
  ⟨rfl, rfl, rfl, rfl, by decide,
    (get_launch_line_skips_equal sample_api alsasink_device [] alsasink_element
      alsasink_factory "alsasink" [name_spec] [stats_spec] device_spec
      rfl rfl rfl rfl (by decide)).1.trans (by decide),
    (get_launch_line_skips_equal sample_api alsasink_device [] alsasink_element
      alsasink_factory "alsasink" [name_spec] [stats_spec] device_spec
      rfl rfl rfl rfl (by decide)).2⟩

/-! ## The claim on `bus_msg_handler` -/

theorem gst_info_appends (log : Log) (message : String) :
    GST_INFO log message = log ++ [⟨GstDebugLevel.INFO, message⟩] := rfl

theorem foreach_print_field {V : Type} (api : GstValueApi V)
    (fields : List (String × V)) (log : Log) :
    gst_structure_foreach (print_field api) fields log =
      (true, log ++ fields.map fun field =>
        ⟨GstDebugLevel.INFO,
          ", " ++ field.1 ++ "=" ++ printf_s (api.gst_value_serialize field.2)⟩) := by
  induction fields generalizing log with
  | nil => simp [gst_structure_foreach]
  | cons field rest ih =>
    rw [gst_structure_foreach]
    simp only [print_field, if_true]
    rw [ih]
    simp [GST_INFO]

theorem print_caps_structure_appends {V : Type} (api : GstValueApi V) (i : Nat)
    (s : GstStructure V) (features : Option GstCapsFeatures) (log : Log) :
    ∃ rest, print_caps_structure api i s features log = log ++ rest := by
  unfold print_caps_structure
  simp only [foreach_print_field, gst_info_appends]
  cases features with
  | none =>
    apply Exists.intro
    simp only [List.append_assoc]
    rfl
  | some f =>
    by_cases hf : (f.is_any || !f.is_equal_system_memory) = true
    · apply Exists.intro
      simp only [if_pos hf, List.append_assoc]
      rfl
    · apply Exists.intro
      simp only [if_neg hf, List.append_assoc]
      rfl

theorem print_caps_loop_appends {V : Type} (api : GstValueApi V) (i : Nat)
    (structures : List (GstStructure V × Option GstCapsFeatures)) (log : Log) :
    ∃ rest, print_caps_loop api i structures log = log ++ rest := by
  induction structures generalizing i log with
  | nil => exact ⟨[], by simp [print_caps_loop]⟩
  | cons entry tail ih =>
    rw [print_caps_loop]
    obtain ⟨r₁, h₁⟩ := print_caps_structure_appends api i entry.1 entry.2 log
    obtain ⟨r₂, h₂⟩ := ih (i + 1) (print_caps_structure api i entry.1 entry.2 log)
    exact ⟨r₁ ++ r₂, by rw [h₂, h₁, List.append_assoc]⟩

/-- The listing of `print_device` starts with the header record. -/
theorem print_device_listing_header {V : Type} (api : GstValueApi V) (device : GstDevice V)
    (modified : Bool) (log : Log) :
    ∃ rest, print_device_listing api device modified log =
      log ++ ⟨GstDebugLevel.INFO,
        "\nDevice " ++ (if modified then "modified" else "found") ++ ":\n\n"⟩ :: rest := by
  unfold print_device_listing
  simp only [foreach_print_structure_field, gst_info_appends]
  have hcaps : ∀ l : Log, ∃ rest,
      (match device.caps with
        | some structures => print_caps_loop api 0 structures l
        | none => l) = l ++ rest := by
    intro l
    cases device.caps with
    | none => exact ⟨[], by simp⟩
    | some structures => exact print_caps_loop_appends api 0 structures l
  obtain ⟨r, hr⟩ := hcaps
    (log ++ [⟨GstDebugLevel.INFO,
        "\nDevice " ++ (if modified then "modified" else "found") ++ ":\n\n"⟩]
      ++ [⟨GstDebugLevel.INFO, "\tname  : " ++ device.display_name ++ "\n"⟩]
      ++ [⟨GstDebugLevel.INFO, "\tclass : " ++ device.device_class ++ "\n"⟩])
  rw [hr]
  cases device.properties with
  | none =>
    apply Exists.intro
    simp only [List.append_assoc, List.singleton_append]
    rfl
  | some props =>
    apply Exists.intro
    simp only [List.append_assoc, List.singleton_append]
    rfl

/-- The log of `print_device` starts, after the log before, with the header
record. -/
theorem print_device_header {V : Type} (api : GstValueApi V) (device : GstDevice V)
    (modified : Bool) (log : Log) :
    ∃ rest, print_device api device modified log =
      log ++ ⟨GstDebugLevel.INFO,
        "\nDevice " ++ (if modified then "modified" else "found") ++ ":\n\n"⟩ :: rest := by
  unfold print_device
  obtain ⟨r₁, h₁⟩ := print_device_listing_header api device modified log
  obtain ⟨r₂, h₂⟩ :=
    get_launch_line_appends api device (print_device_listing api device modified log)
  simp only [gst_info_appends]
  rw [h₂]
  generalize printf_s (get_launch_line api device
    (print_device_listing api device modified log)).1 = str
  rw [h₁]
  by_cases c1 : device.has_classes "Source" = true
  · apply Exists.intro
    simp only [if_pos c1, List.append_assoc, List.cons_append]
    rfl
  · by_cases c2 : device.has_classes "Sink" = true
    · apply Exists.intro
      simp only [if_neg c1, if_pos c2, List.append_assoc, List.cons_append]
      rfl
    · by_cases c3 : device.has_classes "CameraSource" = true
      · apply Exists.intro
        simp only [if_neg c1, if_neg c2, if_pos c3, List.append_assoc, List.cons_append]
        rfl
      · apply Exists.intro
        simp only [if_neg c1, if_neg c2, if_neg c3, List.append_assoc, List.cons_append]
        rfl

/-- C13: `bus_msg_handler` returns `TRUE` for every message.  A device-added
message makes the one call `print_device (device, FALSE)`, whose report starts
with the header `Device found`; a device-changed message makes the one call
`print_device (device, TRUE)`, whose report starts with the header `Device
modified`; a device-removed message writes the `device_removed` report, the two
records `Device removed:` and the name, whatever the value library and the
element of the device (no launch line is computed); a message of any other type
writes only its `<type name> message` record, no device report. -/
theorem bus_msg_handler_reports {V : Type} (api : GstValueApi V) (log : Log) :
    (∀ msg : GstMessage V, (bus_msg_handler api msg log).1 = true) ∧
    (∀ device : GstDevice V,
      (bus_msg_handler api (GstMessage.DEVICE_ADDED device) log).2 =
        print_device api device false log ∧
      ∃ rest, print_device api device false log =
        log ++ ⟨GstDebugLevel.INFO, "\nDevice found:\n\n"⟩ :: rest) ∧
    (∀ device : GstDevice V,
      (bus_msg_handler api (GstMessage.DEVICE_CHANGED device) log).2 =
        print_device api device true log ∧
      ∃ rest, print_device api device true log =
        log ++ ⟨GstDebugLevel.INFO, "\nDevice modified:\n\n"⟩ :: rest) ∧
    (∀ device : GstDevice V,
      (bus_msg_handler api (GstMessage.DEVICE_REMOVED device) log).2 =
        log ++ [⟨GstDebugLevel.INFO, "Device removed:\n"⟩,
          ⟨GstDebugLevel.INFO, "\tname  : " ++ device.display_name ++ "\n"⟩]) ∧
    (∀ type_name : String,
      (bus_msg_handler api (GstMessage.OTHER type_name) log).2 =
        log ++ [⟨GstDebugLevel.INFO, type_name ++ " message\n"⟩]) := by
  refine ⟨fun msg => rfl, fun device => ⟨rfl, ?_⟩, fun device => ⟨rfl, ?_⟩, fun device => ?_,
    fun type_name => rfl⟩
  · exact print_device_header api device false log
  · exact print_device_header api device true log
  · simp [bus_msg_handler, device_removed, GST_INFO]

/-- C13, worked example: the three device messages for the sample `videotestsrc`
device, and a message of another type. -/
theorem bus_msg_handler_reports_witness :
    bus_msg_handler sample_api (GstMessage.DEVICE_ADDED videotestsrc_device) [] =
      (true,
       [⟨GstDebugLevel.INFO, "\nDevice found:\n\n"⟩,
        ⟨GstDebugLevel.INFO, "\tname  : Test pattern\n"⟩,
        ⟨GstDebugLevel.INFO, "\tclass : Video/Source\n"⟩,
        ⟨GstDebugLevel.INFO, "\tgst-launch-1.0 videotestsrc pattern=1 ! ...\n"⟩,
        ⟨GstDebugLevel.INFO, "\n"⟩]) ∧
    bus_msg_handler sample_api (GstMessage.DEVICE_REMOVED videotestsrc_device) [] =
      (true,
       [⟨GstDebugLevel.INFO, "Device removed:\n"⟩,
        ⟨GstDebugLevel.INFO, "\tname  : Test pattern\n"⟩]) ∧
    bus_msg_handler sample_api (GstMessage.OTHER "state-changed") [] =
      (true, [⟨GstDebugLevel.INFO, "state-changed message\n"⟩]) :=
  ⟨Prod.ext ((bus_msg_handler_reports sample_api []).1 _)
      (((bus_msg_handler_reports sample_api []).2.1 videotestsrc_device).1.trans (by decide)),
   Prod.ext ((bus_msg_handler_reports sample_api []).1 _)
      ((bus_msg_handler_reports sample_api []).2.2.2.1 videotestsrc_device),
   Prod.ext ((bus_msg_handler_reports sample_api []).1 _)
      ((bus_msg_handler_reports sample_api []).2.2.2.2 "state-changed")⟩

end DeviceMonitor
